import Mathlib

/-!
Shallow embedding of the query-understanding / data-resolution core of the
AI_Export_insights backend (files `backend/ai_agent/data_adapter.py`,
`backend/ai_agent/agents/processing_agent.py`,
`backend/ai_agent/agents/thinking_agent.py`,
`backend/ai_agent/agents/visualization_agent.py`, and the static
configuration in `backend/config.py`).

Python strings are modelled as `List Char` (`PyStr`); Python's string
operations (`lower`, `strip`, `split`, `replace`, substring `in`) are
re-implemented below on that representation.  Python runtime values are
modelled by the recursive type `Value` (strings, ints, floats, bools,
None, lists, dicts).  Python floats are modelled as exact rationals; on
every value exercised by the claims in this development the float
computations of the source are exact, so the rational model coincides
with the binary float semantics there.  Python exceptions are modelled
with `Except Unit`: `.error ()` marks the point where the corresponding
Python code raises.  Functions that loop over data with bounded
structural progress are implemented with an explicit fuel argument equal
to the input length so that they stay kernel-reducible.
-/

namespace AIExport

/-- Python strings are lists of characters. -/
abbrev PyStr := List Char

/-- Converts a Lean string literal to the `PyStr` representation. -/
def lit (s : String) : PyStr := s.data

/-- A single-quote character (written via its code point). -/
def squote : Char := Char.ofNat 39

/-- ASCII lower-casing of one character, as Python's `str.lower` acts on
the ASCII and Arabic characters occurring in this code base (Arabic has
no case, so `lower` leaves it unchanged in both Python and this model). -/
def lowerChar (c : Char) : Char :=
  if 'A' ≤ c ∧ c ≤ 'Z' then Char.ofNat (c.toNat + 32) else c

/-- ASCII upper-casing of one character (for Python's `str.upper` /
`str.title` on the data of this code base). -/
def upperChar (c : Char) : Char :=
  if 'a' ≤ c ∧ c ≤ 'z' then Char.ofNat (c.toNat - 32) else c

/-- Python `str.lower`. -/
def lower (s : PyStr) : PyStr := s.map lowerChar

/-- Whitespace test used by Python's `str.strip` / `str.split()`. -/
def isWs (c : Char) : Bool :=
  c = ' ' ∨ c = '\t' ∨ c = '\n' ∨ c = '\r'

/-- Python `str.strip()` (no arguments): trim whitespace on both ends. -/
def stripWs (s : PyStr) : PyStr :=
  ((s.dropWhile isWs).reverse.dropWhile isWs).reverse

/-- Python `str.strip("'")`: trim single quotes on both ends. -/
def stripQuotes (s : PyStr) : PyStr :=
  ((s.dropWhile (fun c => c = squote)).reverse.dropWhile (fun c => c = squote)).reverse

/-- Python `str.rstrip("?")`: trim question marks on the right. -/
def rstripQm (s : PyStr) : PyStr :=
  (s.reverse.dropWhile (fun c => c = '?')).reverse

/-- Python substring containment `needle in hay` (for nonempty or empty
needles; Python's `"" in s` is always true, matched by `isPrefixOf`). -/
def subIn (needle : PyStr) : PyStr → Bool
  | [] => needle.isEmpty
  | c :: rest => needle.isPrefixOf (c :: rest) || subIn needle rest

/-- Fueled worker for Python `str.replace` (fuel bounds the number of
consumed characters; it is instantiated with the string length, which
always suffices, and keeps the function kernel-reducible). -/
def replF : Nat → PyStr → PyStr → PyStr → PyStr
  | 0, s, _, _ => s
  | _ + 1, [], _, _ => []
  | f + 1, c :: s, t, u =>
    if t ≠ [] ∧ t.isPrefixOf (c :: s) then
      u ++ replF f (List.drop t.length (c :: s)) t u
    else
      c :: replF f s t u

/-- Python `s.replace(t, u)` for nonempty patterns `t` (replaces
non-overlapping occurrences left to right; the empty-pattern
interspersal behaviour of Python is not modelled because every pattern
passed by the embedded code is a nonempty literal or record key). -/
def pyReplace (s t u : PyStr) : PyStr := replF s.length s t u

/-- Fueled worker for Python `str.split(sep)` with nonempty `sep`. -/
def splitF : Nat → PyStr → PyStr → List PyStr
  | 0, s, _ => [s]
  | _ + 1, [], _ => [[]]
  | f + 1, c :: s, sep =>
    if sep ≠ [] ∧ sep.isPrefixOf (c :: s) then
      [] :: splitF f (List.drop sep.length (c :: s)) sep
    else
      match splitF f s sep with
      | [] => [[c]]
      | h :: t2 => (c :: h) :: t2

/-- Python `s.split(sep)` for a nonempty separator. -/
def pySplit (s sep : PyStr) : List PyStr :=
  if sep = [] then [s] else splitF s.length s sep

/-- Worker for Python whitespace `str.split()` (accumulates the current
word reversed). -/
def pyWordsGo (cur : PyStr) : PyStr → List PyStr
  | [] => if cur = [] then [] else [cur.reverse]
  | c :: s =>
    if isWs c then
      if cur = [] then pyWordsGo [] s else cur.reverse :: pyWordsGo [] s
    else
      pyWordsGo (c :: cur) s

/-- Python `str.split()` with no arguments: split on whitespace runs,
dropping empty chunks. -/
def pyWords (s : PyStr) : List PyStr := pyWordsGo [] s

/-- Digit test for the calculator's `[\d.]+` regex and number parsing. -/
def isDigitCh (c : Char) : Bool := '0' ≤ c ∧ c ≤ '9'

/-- Character class of the calculator regex `[\d.]+`. -/
def isNumCh (c : Char) : Bool := isDigitCh c || c = '.'

/-- Worker collecting maximal `[\d.]+` runs (re.findall). -/
def numRunsGo (cur : PyStr) : PyStr → List PyStr
  | [] => if cur = [] then [] else [cur.reverse]
  | c :: s =>
    if isNumCh c then
      numRunsGo (c :: cur) s
    else
      if cur = [] then numRunsGo [] s else cur.reverse :: numRunsGo [] s

/-- Python `re.findall(r'[\d.]+', s)`. -/
def findNumRuns (s : PyStr) : List PyStr := numRunsGo [] s

/-- Decimal value of a digit string (`none` if empty or non-digit). -/
def digitsVal : PyStr → Option Nat
  | [] => none
  | ds => ds.foldl (fun acc c =>
      match acc with
      | none => none
      | some n => if isDigitCh c then some (n * 10 + (c.toNat - 48)) else none)
      (some 0)

/-- Python `int(s)`: optional sign then decimal digits (surrounding
whitespace stripped); `none` models the `ValueError`. -/
def pyInt (s : PyStr) : Option Int :=
  let s := stripWs s
  match s with
  | '+' :: rest => (digitsVal rest).map Int.ofNat
  | '-' :: rest => (digitsVal rest).map (fun n => -(Int.ofNat n))
  | rest => (digitsVal rest).map Int.ofNat

/-- Fueled Euclidean algorithm (the fuel keeps it structurally
recursive and therefore kernel-reducible; it is always called with
ample fuel). -/
def gcdF : Nat → Nat → Nat → Nat
  | 0, m, n => m + n
  | f + 1, m, n => if m = 0 then n else gcdF f (n % m) m

/-- Greatest common divisor with sufficient fuel. -/
def pyGcd (m n : Nat) : Nat := gcdF (2 * (m + n) + 2) m n

/-- Python floats are modelled as exact rationals in lowest terms,
carried as a numerator/positive-denominator pair (a custom type rather
than Mathlib's `ℚ` so that arithmetic stays kernel-reducible).  On
every value the claims exercise the float computations of the source
are exact, so this model coincides with binary float semantics
there. -/
structure PyFloat where
  num : Int
  den : Nat
deriving DecidableEq

/-- Normalizes a fraction with positive denominator to lowest terms. -/
def pfNorm (num : Int) (den : Nat) : PyFloat :=
  let g := pyGcd num.natAbs den
  if g = 0 then ⟨num, den⟩ else ⟨num / (g : Int), den / g⟩

/-- The float of an integer. -/
def pf (n : Int) : PyFloat := ⟨n, 1⟩

/-- Float addition. -/
def pfAdd (a b : PyFloat) : PyFloat :=
  pfNorm (a.num * (b.den : Int) + b.num * (a.den : Int)) (a.den * b.den)

/-- Float subtraction. -/
def pfSub (a b : PyFloat) : PyFloat :=
  pfNorm (a.num * (b.den : Int) - b.num * (a.den : Int)) (a.den * b.den)

/-- Float multiplication. -/
def pfMul (a b : PyFloat) : PyFloat := pfNorm (a.num * b.num) (a.den * b.den)

/-- Float division (callers of the embedding guard the zero divisor as
the source does; the zero case is given an arbitrary total value). -/
def pfDiv (a b : PyFloat) : PyFloat :=
  if b.num = 0 then ⟨0, 1⟩
  else if 0 < b.num then pfNorm (a.num * (b.den : Int)) (a.den * b.num.natAbs)
  else pfNorm (-(a.num * (b.den : Int))) (a.den * b.num.natAbs)

/-- Float strict comparison (cross-multiplication). -/
def pfLt (a b : PyFloat) : Bool := a.num * (b.den : Int) < b.num * (a.den : Int)

/-- Float non-strict comparison. -/
def pfLe (a b : PyFloat) : Bool := a.num * (b.den : Int) ≤ b.num * (a.den : Int)

/-- Float value equality (cross-multiplication, so it is meaningful
even on non-normalized pairs). -/
def pfEq (a b : PyFloat) : Bool := a.num * (b.den : Int) = b.num * (a.den : Int)

/-- Floor of a float. -/
def pfFloor (a : PyFloat) : Int := Int.fdiv a.num (a.den : Int)

/-- Negation of a float. -/
def pfNeg (a : PyFloat) : PyFloat := ⟨-a.num, a.den⟩

/-- Python `float(s)` restricted to plain decimal literals
(optional sign, digits with at most one dot, at least one digit);
exponents / `inf` / `nan` are rejected like other malformed input, which
agrees with Python on every string the claims exercise. `none` models
the `ValueError`. -/
def parseFloat (s : PyStr) : Option PyFloat :=
  let s := stripWs s
  let (body, sign) : PyStr × Int := match s with
    | '+' :: rest => (rest, 1)
    | '-' :: rest => (rest, -1)
    | rest => (rest, 1)
  if body.all isNumCh ∧ body.any isDigitCh then
    match pySplit body (lit (".")) with
    | [ip] =>
      match digitsVal ip with
      | some n => some (pfNorm (sign * (n : Int)) 1)
      | none => none
    | [ip, fp] =>
      let k := fp.length
      let ipv := (digitsVal ip).getD 0
      let fpv := (digitsVal fp).getD 0
      some (pfNorm (sign * ((ipv * 10 ^ k + fpv : Nat) : Int)) (10 ^ k))
    | _ => none
  else none

/-- Decimal digits of an integer, as Python's `str(int)` prints it. -/
def intRepr (n : Int) : PyStr := (toString n).data

/-- Fractional decimal digits of a float in `[0, 1)`, up to `k` places
(worker for the float printer). -/
def fracDigits : Nat → PyFloat → PyStr
  | 0, _ => []
  | k + 1, q =>
    let q10 := pfMul q (pf 10)
    let d := pfFloor q10
    Char.ofNat (48 + d.toNat) :: fracDigits k (pfSub q10 (pf d))

/-- Printer for a nonnegative float value (worker for `floatRepr`). -/
def floatReprNonneg (q : PyFloat) : PyStr :=
  if q.den = 1 then intRepr q.num ++ lit (".0")
  else
    let ip := pfFloor q
    let frac := (fracDigits 12 (pfSub q (pf ip))).reverse.dropWhile (fun c => c = '0')
    let frac := if frac = [] then ['0'] else frac.reverse
    intRepr ip ++ '.' :: frac

/-- Python `repr`/`str` of a float, exact for floats with integral value
(the only ones the claims print); non-integral values are printed with
up to twelve decimal places, trailing zeros trimmed, which can differ
from Python's shortest-repr algorithm on values never exercised here. -/
def floatRepr (q : PyFloat) : PyStr :=
  if q.num < 0 then '-' :: floatReprNonneg (pfNeg q) else floatReprNonneg q

/-- Inserts a thousands separator after every third digit (input is the
reversed digit string; worker for Python's `,` format spec). -/
def group3 : PyStr → PyStr
  | a :: b :: c :: d :: rest => a :: b :: c :: ',' :: group3 (d :: rest)
  | l => l

/-- Python `format(i, ',d')` on a nonnegative integer: digits grouped in
threes by commas. -/
def natGrouped (n : Nat) : PyStr := (group3 (toString n).data.reverse).reverse

/-- Rounds a float to the nearest integer, ties to even (the rounding
of Python's fixed-point float formatting, exact here because floats are
modelled as exact rationals). -/
def roundHalfEven (q : PyFloat) : Int :=
  let f := pfFloor q
  let r := pfSub q (pf f)
  if pfLt r ⟨1, 2⟩ then f
  else if pfLt ⟨1, 2⟩ r then f + 1
  else if f % 2 = 0 then f else f + 1

/-- Python runtime values as loaded from the JSON store: strings, ints,
floats (exact rationals), bools, `None`, lists, and dicts (association
lists in insertion order, since Python dicts preserve it). -/
inductive Value where
  | str (s : PyStr)
  | int (n : Int)
  | float (q : PyFloat)
  | bool (b : Bool)
  | null
  | list (l : List Value)
  | dict (d : List (PyStr × Value))

/-- Python dicts with string keys, in insertion order. -/
abbrev Record := List (PyStr × Value)

instance : Inhabited Value := ⟨Value.null⟩

/-- Tables of the in-memory store (`JSONDataAdapter._cache`): table name
to list of rows (each row is usually, but not necessarily, a dict). -/
abbrev Store := List (PyStr × List Value)

/-- The `_cache.get(table, [])` lookup of the adapter. -/
def storeGet (st : Store) (t : PyStr) : List Value :=
  match st.find? (fun p => decide (p.1 = t)) with
  | some p => p.2
  | none => []

/-- Python `d.get(k, default)` on a dict. -/
def recGetD (d : Record) (k : PyStr) (dflt : Value) : Value :=
  match d.find? (fun p => decide (p.1 = k)) with
  | some p => p.2
  | none => dflt

/-- Python `k in d` on a dict. -/
def hasKey (d : Record) (k : PyStr) : Bool :=
  d.any (fun p => decide (p.1 = k))

/-- Python `d[k] = v`: overwrite in place if the key exists (keeping its
position), else append. -/
def insertPy (d : Record) (k : PyStr) (v : Value) : Record :=
  if hasKey d k then d.map (fun p => if p.1 = k then (k, v) else p) else d ++ [(k, v)]

/-- Numeric view of a value (Python treats `bool` as an int subclass):
`some` for ints, floats and bools, `none` otherwise. -/
def numQ : Value → Option PyFloat
  | .int n => some (pf n)
  | .float q => some q
  | .bool b => some (if b then pf 1 else pf 0)
  | _ => none

/-- Python truthiness (`or 0` coercions in the source). -/
def truthy : Value → Bool
  | .str s => ¬s.isEmpty
  | .int n => decide (n ≠ 0)
  | .float q => decide (q.num ≠ 0)
  | .bool b => b
  | .null => false
  | .list l => ¬l.isEmpty
  | .dict d => ¬d.isEmpty

/-- Python `float(v)`: numbers pass through, bools become 0/1, strings
are parsed, everything else raises (`.error ()` models the
`TypeError`/`ValueError`). -/
def floatOfValue : Value → Except Unit PyFloat
  | .int n => .ok (pf n)
  | .float q => .ok q
  | .bool b => .ok (if b then pf 1 else pf 0)
  | .str s =>
    match parseFloat s with
    | some q => .ok q
    | none => .error ()
  | _ => .error ()

mutual
/-- Python `==` between values: cross-type numeric equality, structural
equality elsewhere (dict equality is modelled order-sensitively, which
agrees with Python on every comparison the embedded code performs). -/
def eqV : Value → Value → Bool
  | .str a, .str b => decide (a = b)
  | .list a, .list b => eqVL a b
  | .dict a, .dict b => eqVD a b
  | .null, .null => true
  | a, b =>
    match numQ a, numQ b with
    | some p, some q => pfEq p q
    | _, _ => false

/-- Elementwise `==` on Python lists. -/
def eqVL : List Value → List Value → Bool
  | [], [] => true
  | a :: as', b :: bs => eqV a b && eqVL as' bs
  | _, _ => false

/-- Entrywise `==` on Python dicts (insertion-order sensitive model). -/
def eqVD : List (PyStr × Value) → List (PyStr × Value) → Bool
  | [], [] => true
  | (k, v) :: rest, (k2, v2) :: rest2 => decide (k = k2) && eqV v v2 && eqVD rest rest2
  | _, _ => false
end

/-- Code-point comparison of strings (Python string `<`). -/
def lexCmp : PyStr → PyStr → Ordering
  | [], [] => .eq
  | [], _ :: _ => .lt
  | _ :: _, [] => .gt
  | a :: as', b :: bs =>
    if a.toNat < b.toNat then .lt
    else if b.toNat < a.toNat then .gt
    else lexCmp as' bs

mutual
/-- Python rich comparison (`<`) as a partial order test: `some` with
the ordering for comparable pairs (numbers with numbers, strings with
strings, lists elementwise), `none` where Python would raise
`TypeError` (mixed types, `None`, dicts). -/
def ordCmp : Value → Value → Option Ordering
  | .str a, .str b => some (lexCmp a b)
  | .list a, .list b => ordCmpL a b
  | a, b =>
    match numQ a, numQ b with
    | some p, some q =>
      some (if pfLt p q then .lt else if pfLt q p then .gt else .eq)
    | _, _ => none

/-- Python list comparison: scan with `==` and decide at the first
unequal pair, falling back to length comparison. -/
def ordCmpL : List Value → List Value → Option Ordering
  | [], [] => some .eq
  | [], _ :: _ => some .lt
  | _ :: _, [] => some .gt
  | a :: as', b :: bs =>
    if eqV a b then ordCmpL as' bs
    else
      match ordCmp a b with
      | some o => some o
      | none => none
end

/-- Whether every pair drawn from the list is Python-comparable (the
sort-failure model: CPython's sort raises `TypeError` as soon as it
compares an incomparable pair; this model treats a key list as sortable
exactly when all pairs are comparable, which coincides on the
homogeneous keys produced by the embedded code). -/
def pairsOK : List Value → Bool
  | [] => true
  | k :: rest => rest.all (fun k2 => (ordCmp k k2).isSome) && pairsOK rest

/-- Stable insertion of `x` in front of the first element `y` with
`le x y` (worker of the stable sort). -/
def insSorted (le : α → α → Bool) (x : α) : List α → List α
  | [] => [x]
  | y :: ys => if le x y then x :: y :: ys else y :: insSorted le x ys

/-- Stable insertion sort, matching the stability guarantee of Python's
`sorted`/`list.sort` (equal elements keep their original order, also
under `reverse=True`). -/
def isort (le : α → α → Bool) : List α → List α
  | [] => []
  | x :: xs => insSorted le x (isort le xs)

/-- Python `str(v)` (only the cases reachable in the embedded code;
list/dict renderings are simplified where Python would print reprs the
claims never inspect). -/
def toPyStr : Value → PyStr
  | .str s => s
  | .int n => intRepr n
  | .float q => floatRepr q
  | .bool b => if b then lit ("True") else lit ("False")
  | .null => lit ("None")
  | .list l => '[' :: intRepr l.length ++ lit (" item list]")
  | .dict d => '\x7b' :: intRepr d.length ++ lit (" item dict\x7d")

/-- Python `l[:n]` slice semantics for an `int` bound: nonnegative
bounds truncate, negative bounds drop from the end. -/
def pySlice (l : List α) (n : Int) : List α :=
  if n < 0 then l.take (l.length - n.natAbs) else l.take n.toNat

/-!  `JSONDataAdapter` (`backend/ai_agent/data_adapter.py`).  -/

/-- One substitution step of `_apply_where`: `if col in condition:
condition = condition.replace(col, repr-of-val)` (strings are wrapped in
single quotes by the `f"'{val}'"` of the source). -/
def substOne (cond : PyStr) (kv : PyStr × Value) : PyStr :=
  if subIn kv.1 cond then
    pyReplace cond kv.1
      (match kv.2 with
       | .str s => squote :: s ++ [squote]
       | v => toPyStr v)
  else cond

/-- Decision of `_apply_where` for one record: substitute the record's
values into the clause, then keep the row unless the substituted
condition is a pure two-sided equality test that fails.  Non-dict rows
raise inside the per-record `try`, whose `except: pass` silently drops
them.  (The per-record `try` can never fire for dict rows, because all
operations in the body are total on strings.) -/
def keepsRow (clause : PyStr) (r : Value) : Bool :=
  match r with
  | .dict d =>
    let cond := d.foldl substOne clause
    if ('=') ∈ cond ∧ ¬(('>') ∈ cond) ∧ ¬(('<') ∈ cond) then
      let parts := pySplit cond (lit ("="))
      if parts.length = 2 then
        decide (stripQuotes (stripWs (parts.getD 0 [])) =
                stripQuotes (stripWs (parts.getD 1 [])))
      else false
    else true
  | _ => false

/-- `JSONDataAdapter._apply_where`: filter the rows by `keepsRow`. -/
def apply_where (rows : List Value) (clause : PyStr) : List Value :=
  rows.filter (keepsRow clause)

/-- Lower-cased, stripped form of the SQL text (`sql.strip().lower()`). -/
def sqlLowered (sql : PyStr) : PyStr := lower (stripWs sql)

/-- The WHERE clause text as `execute_query` slices it out of the
lowered SQL (everything after the first `where`, cut at `order by` and
`limit`, stripped). -/
def whereClauseOf (sqlN : PyStr) : PyStr :=
  let wp := (pySplit sqlN (lit ("where"))).getD 1 []
  let wp := if subIn (lit ("order by")) wp then (pySplit wp (lit ("order by"))).getD 0 [] else wp
  let wp := if subIn (lit ("limit")) wp then (pySplit wp (lit ("limit"))).getD 0 [] else wp
  stripWs wp

/-- The text following `order by` (cut at `limit`), from which the sort
column and the `desc` flag are read. -/
def orderParts (sqlN : PyStr) : PyStr :=
  let op := (pySplit sqlN (lit ("order by"))).getD 1 []
  if subIn (lit ("limit")) op then (pySplit op (lit ("limit"))).getD 0 [] else op

/-- Python's `sorted(results, key=lambda x: x.get(order_col, ''),
reverse=desc)`: extract the keys (raising on non-dict rows), then sort
stably if every key pair is comparable, else raise `TypeError`. -/
def pySortedE (col : PyStr) (descFlag : Bool) (rows : List Value) : Except Unit (List Value) :=
  match rows.mapM (fun r =>
      match r with
      | .dict d => Except.ok (recGetD d col (.str []), r)
      | _ => Except.error ()) with
  | .error _ => .error ()
  | .ok keyed =>
    if pairsOK (keyed.map (fun p => p.1)) then
      .ok ((isort (fun a b =>
        if descFlag then (ordCmp a.1 b.1 ≠ some .lt : Bool) else (ordCmp a.1 b.1 ≠ some .gt : Bool)) keyed).map (fun p => p.2))
    else .error ()

/-- ORDER BY stage of `execute_query`: raises on a missing column token
(`IndexError`) or an incomparable key pair (`TypeError` in `sorted`). -/
def orderStageE (sqlN : PyStr) (rows : List Value) : Except Unit (List Value) :=
  if subIn (lit ("order by")) sqlN then
    let op := orderParts sqlN
    match pyWords (stripWs op) with
    | [] => .error ()
    | colTok :: _ => pySortedE colTok (subIn (lit ("desc")) op) rows
  else .ok rows

/-- LIMIT stage of `execute_query`: raises on a missing token
(`IndexError`) or a non-integer token (`ValueError` in `int`). -/
def limitStageE (sqlN : PyStr) (rows : List Value) : Except Unit (List Value) :=
  if subIn (lit ("limit")) sqlN then
    let lp := stripWs ((pySplit sqlN (lit ("limit"))).getD 1 [])
    match pyWords lp with
    | [] => .error ()
    | tok :: _ =>
      match pyInt tok with
      | some n => .ok (pySlice rows n)
      | none => .error ()
  else .ok rows

/-- The dict comprehension `{c: r.get(c) for c in columns if c in r}`. -/
def projectCols (d : Record) (cols : List PyStr) : Record :=
  cols.foldl (fun acc c => if hasKey d c then insertPy acc c (recGetD d c .null) else acc) []

/-- Column-projection stage of `execute_query` (`select_part != '*'`);
raises `AttributeError` on non-dict rows. -/
def projStageE (selectPart : PyStr) (rows : List Value) : Except Unit (List Value) :=
  if selectPart = lit ("*") then .ok rows
  else
    let cols := (pySplit selectPart (lit (","))).map stripWs
    rows.mapM (fun r =>
      match r with
      | .dict d => .ok (.dict (projectCols d cols))
      | _ => .error ())

/-- Control-flow outcome of one run of `execute_query`'s body:
either a normal early return of `[]` (non-SELECT text or missing
`FROM`), a completed run, or the stage at which Python raises together
with the rows the local `results` held at that moment. -/
inductive QTrace where
  | earlyEmpty
  | tableFail
  | orderFail (r1 : List Value)
  | limitFail (r2 : List Value)
  | projFail (r3 : List Value)
  | done (r4 : List Value)

/-- The staged run of the `execute_query` body (lines 194–242 of
`data_adapter.py`): parses the table, applies WHERE, ORDER BY, LIMIT
and the column projection in order, recording which stage (if any)
raises and the rows held at that point. -/
def queryTrace (st : Store) (sql : PyStr) : QTrace :=
  let sqlN := sqlLowered sql
  if (lit ("select")).isPrefixOf sqlN then
    let fm := pySplit sqlN (lit ("from"))
    if fm.length < 2 then .earlyEmpty
    else
      match pyWords (stripWs (fm.getD 1 [])) with
      | [] => .tableFail
      | t :: _ =>
        let r0 := storeGet st (stripWs t)
        let r1 := if subIn (lit ("where")) sqlN then apply_where r0 (whereClauseOf sqlN) else r0
        match orderStageE sqlN r1 with
        | .error _ => .orderFail r1
        | .ok r2 =>
          match limitStageE sqlN r2 with
          | .error _ => .limitFail r2
          | .ok r3 =>
            let selectPart := stripWs (pyReplace (fm.getD 0 []) (lit ("select")) [])
            match projStageE selectPart r3 with
            | .error _ => .projFail r3
            | .ok r4 => .done r4
  else .earlyEmpty

/-- `JSONDataAdapter.execute_query`: the interpreter with its outer
`try/except` — a stage exception is caught, only logged, and the
current value of the Python local `results` is returned. -/
def execute_query (st : Store) (sql : PyStr) : List Value :=
  match queryTrace st sql with
  | .earlyEmpty => []
  | .tableFail => []
  | .orderFail r1 => r1
  | .limitFail r2 => r2
  | .projFail r3 => r3
  | .done r4 => r4

/-- The body of `execute_query` without its `try/except`: `.error ()`
marks the queries on which the Python body raises before completing. -/
def executeQueryE (st : Store) (sql : PyStr) : Except Unit (List Value) :=
  match queryTrace st sql with
  | .earlyEmpty => .ok []
  | .done r4 => .ok r4
  | _ => .error ()

/-- The value of the Python local `results` at the moment the
interpreter body raises: `some` of that snapshot when a stage raises,
`none` when the body completes normally. -/
def rowsAtFailure (st : Store) (sql : PyStr) : Option (List Value) :=
  match queryTrace st sql with
  | .earlyEmpty => none
  | .done _ => none
  | .tableFail => some []
  | .orderFail r1 => some r1
  | .limitFail r2 => some r2
  | .projFail r3 => some r3

/-!  `ProcessingAgent` (`backend/ai_agent/agents/processing_agent.py`).  -/

/-- Subtable key `custom_custom_doctypes_to_cancel_bank_guarantee`. -/
def cancelBgK : PyStr := lit ("custom_custom_doctypes_to_cancel_bank_guarantee")

/-- Subtable key `custom_doctypes_to_send_bank_guarantee`. -/
def sendBgK : PyStr := lit ("custom_doctypes_to_send_bank_guarantee")

/-- Subtable key `custom_doctypes_to_send_sales_invoice`. -/
def salesInvK : PyStr := lit ("custom_doctypes_to_send_sales_invoice")

/-- Subtable key `custom_doctypes_to_send_purchase_invoice`. -/
def purchInvK : PyStr := lit ("custom_doctypes_to_send_purchase_invoice")

/-- Subtable key `custom_doctypes_to_send_sales_order`. -/
def salesOrdK : PyStr := lit ("custom_doctypes_to_send_sales_order")

/-- Subtable key `custom_doctypes_to_send_purchase_order`. -/
def purchOrdK : PyStr := lit ("custom_doctypes_to_send_purchase_order")

/-- Subtable key `custom_doctypes_opportinity`. -/
def oppK : PyStr := lit ("custom_doctypes_opportinity")

/-- Subtable key `custom_doctypes_to_send_opportinity`. -/
def sendOppK : PyStr := lit ("custom_doctypes_to_send_opportinity")

/-- Subtable key `custom_tax_opporunity`. -/
def taxOppK : PyStr := lit ("custom_tax_opporunity")

/-- Subtable key `custom_doctypes_to_send_quotation`. -/
def sendQuotK : PyStr := lit ("custom_doctypes_to_send_quotation")

/-- Subtable key `custom_supplier_quotation`. -/
def supQuotK : PyStr := lit ("custom_supplier_quotation")

/-- Subtable key `custom_doctypes_to_send_offer_note`. -/
def offerK : PyStr := lit ("custom_doctypes_to_send_offer_note")

/-- Subtable key `custom_contract_modification_note_logs`. -/
def contractModK : PyStr := lit ("custom_contract_modification_note_logs")

/-- Subtable key `custom_doctypes_to_send_estimated_assay`. -/
def assayK : PyStr := lit ("custom_doctypes_to_send_estimated_assay")

/-- Subtable key `custom_request_cert`. -/
def certK : PyStr := lit ("custom_request_cert")

/-- Subtable key `custom_payment_claim_logs`. -/
def payClaimK : PyStr := lit ("custom_payment_claim_logs")

/-- Subtable key `custom_tax_status`. -/
def taxStatusK : PyStr := lit ("custom_tax_status")

/-- Subtable key `custom_tax_letters`. -/
def taxLettersK : PyStr := lit ("custom_tax_letters")

/-- Subtable key `custom_tax_release_logs`. -/
def taxReleaseK : PyStr := lit ("custom_tax_release_logs")

/-- Subtable key `custom_doctypes_to_send_hazarads`. -/
def hazardK : PyStr := lit ("custom_doctypes_to_send_hazarads")

/-- Subtable key `custom_extension_letter`. -/
def extLetterK : PyStr := lit ("custom_extension_letter")

/-- Subtable key `custom_contract_periods_entity`. -/
def periodsK : PyStr := lit ("custom_contract_periods_entity")

/-- Subtable key `custom_dues_payment_log`. -/
def duesK : PyStr := lit ("custom_dues_payment_log")

/-- Subtable key `custom_consultant_letters`. -/
def consultK : PyStr := lit ("custom_consultant_letters")

/-- `ProcessingAgent.SUBTABLE_MAP`, written out with Python dict-literal
semantics applied: keys appear at their first insertion position and
carry their last assigned value (the source assigns `"خطاب"` and
`"claim"` twice; the later assignment wins). -/
def SUBTABLE_MAP : List (PyStr × List PyStr) := [
  (lit ("cancel bank"), [cancelBgK]),
  (lit ("إلغاء ضمان"), [cancelBgK]),
  (lit ("bank guarantee"), [cancelBgK, sendBgK]),
  (lit ("bank"), [cancelBgK, sendBgK]),
  (lit ("guarantee"), [cancelBgK, sendBgK]),
  (lit ("ضمان بنكي"), [cancelBgK, sendBgK]),
  (lit ("ضمان"), [cancelBgK, sendBgK]),
  (lit ("خطاب ضمان"), [cancelBgK, sendBgK]),
  (lit ("بنك"), [cancelBgK, sendBgK]),
  (lit ("sales invoice"), [salesInvK]),
  (lit ("فاتورة مبيعات"), [salesInvK]),
  (lit ("فواتير المبيعات"), [salesInvK]),
  (lit ("purchase invoice"), [purchInvK]),
  (lit ("فاتورة مشتريات"), [purchInvK]),
  (lit ("فواتير المشتريات"), [purchInvK]),
  (lit ("invoice"), [salesInvK, purchInvK]),
  (lit ("فاتورة"), [salesInvK, purchInvK]),
  (lit ("فواتير"), [salesInvK, purchInvK]),
  (lit ("sales order"), [salesOrdK]),
  (lit ("أمر بيع"), [salesOrdK]),
  (lit ("أوامر البيع"), [salesOrdK]),
  (lit ("purchase order"), [purchOrdK]),
  (lit ("أمر شراء"), [purchOrdK]),
  (lit ("أوامر الشراء"), [purchOrdK]),
  (lit ("order"), [salesOrdK, purchOrdK]),
  (lit ("طلب"), [salesOrdK, purchOrdK]),
  (lit ("أمر توريد"), [salesOrdK]),
  (lit ("أوامر"), [salesOrdK, purchOrdK]),
  (lit ("opportunity"), [oppK, sendOppK, taxOppK]),
  (lit ("فرصة"), [oppK, sendOppK, taxOppK]),
  (lit ("فرص"), [oppK, sendOppK, taxOppK]),
  (lit ("خطابات"), [oppK, sendOppK]),
  (lit ("خطاب"), [sendOppK]),
  (lit ("وارد"), [oppK]),
  (lit ("صادر"), [oppK]),
  (lit ("quotation"), [sendQuotK, supQuotK]),
  (lit ("عرض سعر"), [sendQuotK, supQuotK]),
  (lit ("عرض أسعار"), [sendQuotK, supQuotK]),
  (lit ("عروض"), [sendQuotK, supQuotK]),
  (lit ("offer"), [offerK]),
  (lit ("عرض"), [offerK]),
  (lit ("contract"), [contractModK]),
  (lit ("modification"), [contractModK]),
  (lit ("عقد"), [contractModK]),
  (lit ("تعديل عقد"), [contractModK]),
  (lit ("تعديل"), [contractModK]),
  (lit ("ملحق"), [contractModK]),
  (lit ("assay"), [assayK]),
  (lit ("estimated"), [assayK]),
  (lit ("مقايسة"), [assayK]),
  (lit ("مقايسات"), [assayK]),
  (lit ("تقديرية"), [assayK]),
  (lit ("certificate"), [certK]),
  (lit ("شهادة"), [certK]),
  (lit ("شهادات"), [certK]),
  (lit ("claim"), [payClaimK]),
  (lit ("payment"), [payClaimK]),
  (lit ("مطالبة"), [payClaimK]),
  (lit ("مطالبات"), [payClaimK]),
  (lit ("دفع"), [payClaimK]),
  (lit ("مستخلص"), [payClaimK]),
  (lit ("tax"), [taxStatusK, taxOppK, taxLettersK]),
  (lit ("ضريبة"), [taxStatusK, taxOppK, taxLettersK]),
  (lit ("ضرائب"), [taxStatusK, taxOppK, taxLettersK]),
  (lit ("إعفاء"), [taxReleaseK]),
  (lit ("hazard"), [hazardK]),
  (lit ("risk"), [hazardK]),
  (lit ("مخاطر"), [hazardK]),
  (lit ("extension"), [extLetterK]),
  (lit ("تمديد"), [extLetterK]),
  (lit ("مد مدة"), [extLetterK]),
  (lit ("period"), [periodsK]),
  (lit ("فترة"), [periodsK]),
  (lit ("فترات"), [periodsK]),
  (lit ("مدة العقد"), [periodsK]),
  (lit ("dues"), [duesK]),
  (lit ("مستحقات"), [duesK]),
  (lit ("consultant"), [consultK]),
  (lit ("استشاري"), [consultK]),
  (lit ("Letter"), [sendOppK]),
  (lit ("الخطابات"), [sendOppK]),
  (lit ("مطالبة صرف"), [payClaimK])]

/-- `ProcessingAgent.SUBTABLE_LABELS`, with Python dict-literal
semantics applied (the duplicated keys `custom_doctypes_opportinity`
and `"Doctypes to Send"` keep their first position and last value). -/
def SUBTABLE_LABELS : List (PyStr × PyStr) := [
  (oppK, lit ("المراسلات الواردة والصادرة (Opportunities)")),
  (sendOppK, lit ("الفرص المرسلة (Sent Opportunities)")),
  (taxOppK, lit ("فرص ضريبية (Tax Opportunities)")),
  (sendBgK, lit ("خطابات الضمان البنكية (Bank Guarantees)")),
  (cancelBgK, lit ("إلغاء خطابات الضمان (Cancel Bank Guarantees)")),
  (salesOrdK, lit ("أوامر البيع (Sales Orders)")),
  (purchOrdK, lit ("أوامر الشراء (Purchase Orders)")),
  (salesInvK, lit ("فواتير المبيعات (Sales Invoices)")),
  (purchInvK, lit ("فواتير المشتريات (Purchase Invoices)")),
  (lit ("Doctypes to Send"), lit ("الفرص الصادر (Opportunities)")),
  (contractModK, lit ("ملاحق العقد (Contract Modifications)")),
  (assayK, lit ("المقايسات التقديرية (Estimated Assays)")),
  (certK, lit ("طلبات الشهادات (Certificate Requests)")),
  (payClaimK, lit ("المطالبات المالية (Payment Claims)")),
  (taxStatusK, lit ("حالة الضرائب (Tax Status)")),
  (taxLettersK, lit ("خطابات ضريبية (Tax Letters)")),
  (taxReleaseK, lit ("سجلات الإعفاء الضريبي (Tax Release Logs)")),
  (hazardK, lit ("المخاطر (Hazards)")),
  (extLetterK, lit ("خطابات التمديد (Extension Letters)")),
  (periodsK, lit ("فترات العقد (Contract Periods)")),
  (duesK, lit ("سجل المستحقات (Dues Payment)")),
  (consultK, lit ("خطابات الاستشاري (Consultant Letters)")),
  (supQuotK, lit ("عروض أسعار الموردين (Supplier Quotations)")),
  (sendQuotK, lit ("عروض الأسعار (Quotations)")),
  (offerK, lit ("مذكرات العروض (Offer Notes)")),
  (lit ("custom_child_projects"), lit ("مشاريع فرعية (Child Projects)")),
  (lit ("custom_exchange_items_letter"), lit ("خطابات تبادل الأصناف (Exchange Items Letters)")),
  (lit ("custom_bg_note"), lit ("ملاحظات الضمان (BG Notes)"))]

/-- Lookup in `SUBTABLE_MAP` (`self.SUBTABLE_MAP[keyword]`). -/
def subtableMapGet (kw : PyStr) : List PyStr :=
  match SUBTABLE_MAP.find? (fun p => decide (p.1 = kw)) with
  | some p => p.2
  | none => []

/-- Lookup in `SUBTABLE_LABELS` with the key itself as default
(`self.SUBTABLE_LABELS.get(key, key)`). -/
def subtableLabel (k : PyStr) : PyStr :=
  match SUBTABLE_LABELS.find? (fun p => decide (p.1 = k)) with
  | some p => p.2
  | none => k

/-- `sorted(self.SUBTABLE_MAP.keys(), key=len, reverse=True)`: the
keyword list stably sorted by length, longest first. -/
def sortedKeywords : List PyStr :=
  isort (fun a b => decide (b.length ≤ a.length)) (SUBTABLE_MAP.map (fun p => p.1))

/-- The keyword scan of `_execute_sql` (lines 251–259): first keyword of
the length-sorted list contained in the lowered or the raw query. -/
def subtableScan (q : PyStr) : Option PyStr :=
  let ql := lower q
  sortedKeywords.find? (fun kw => subIn kw ql || subIn kw q)

/-- Python `sep.join(parts)`. -/
def joinSep (sep : PyStr) : List PyStr → PyStr
  | [] => []
  | [x] => x
  | x :: rest => x ++ sep ++ joinSep sep rest

/-- The result shape `{"data": ..., "query": ...}` returned by every
tool method of `ProcessingAgent`. -/
structure SqlOut where
  data : List Value
  query : PyStr

/-- Prioritized fields copied first when flattening a subtable item. -/
def priorityFields : List PyStr :=
  [lit ("reference_type"), lit ("reference_name"), lit ("doc_details"),
   lit ("totals"), lit ("customer"), lit ("idx")]

/-- Audit/internal fields excluded when flattening a subtable item. -/
def denyFields : List PyStr :=
  [lit ("parent"), lit ("parentfield"), lit ("parenttype"), lit ("doctype"),
   lit ("docstatus"), lit ("owner"), lit ("creation"), lit ("modified"),
   lit ("modified_by")]

/-- Flattening of one nested subtable item into an enriched record
(`_extract_subtable_data`, inner loop): provenance fields first, then
the prioritized fields, then all remaining non-denylisted fields. -/
def enrichItem (label projName projId : Value) (item : Record) : Record :=
  let base : Record := [(lit ("_source_table"), label),
                        (lit ("_project_name"), projName),
                        (lit ("_project_id"), projId)]
  let base := priorityFields.foldl
    (fun acc f => if hasKey item f then insertPy acc f (recGetD item f .null) else acc) base
  item.foldl
    (fun acc kv =>
      if ¬hasKey acc kv.1 ∧ kv.1 ∉ denyFields then acc ++ [(kv.1, kv.2)] else acc)
    base

/-- Per-project part of `_extract_subtable_data`: the flattened items
and touched labels contributed by one project row.  Non-dict rows make
the Python `key in proj` / `proj[key]` accesses raise. -/
def extractProj (targetKeys : List PyStr) (proj : Value) : Except Unit (List Record × List PyStr) :=
  match proj with
  | .dict d =>
    .ok (targetKeys.foldl
      (fun acc k =>
        match recGetD d k .null with
        | .list items =>
          (acc.1 ++ items.filterMap (fun it =>
            match it with
            | .dict itd =>
              some (enrichItem (.str (subtableLabel k))
                (recGetD d (lit ("project_name")) (.str []))
                (recGetD d (lit ("name")) (.str [])) itd)
            | _ => none),
           acc.2 ++ [subtableLabel k])
        | _ => acc)
      ([], []))
  | .str s => if targetKeys.any (fun k => subIn k s) then .error () else .ok ([], [])
  | .list l =>
    if targetKeys.any (fun k => l.any (fun e => eqV e (.str k))) then .error () else .ok ([], [])
  | _ => if targetKeys.isEmpty then .ok ([], []) else .error ()

/-- The sort key of `_extract_subtable_data`:
`float(x.get("totals", x.get("idx", 0)) or 0)`. -/
def subtableSortKeyE (it : Record) : Except Unit PyFloat :=
  let v := recGetD it (lit ("totals")) (recGetD it (lit ("idx")) (.int 0))
  floatOfValue (if truthy v then v else .int 0)

/-- `ProcessingAgent._extract_subtable_data`: flatten the matched
nested lists of every `project_59` row, then best-effort sort by the
numeric key (a `ValueError`/`TypeError` while computing the keys is
caught and leaves the set in extraction order, as CPython computes all
sort keys before reordering), then truncate to `limit`. -/
def extract_subtable_dataE (st : Store) (targetKeys : List PyStr) (limit : Int) (order : PyStr) :
    Except Unit SqlOut := do
  let projectData := storeGet st (lit ("project_59"))
  let pairs ← projectData.mapM (extractProj targetKeys)
  let extracted := (pairs.map (fun p => p.1)).flatten
  let labels := (pairs.map (fun p => p.2)).flatten
  let sorted :=
    if extracted.isEmpty then extracted
    else
      match extracted.mapM (fun it => (subtableSortKeyE it).map (fun q => (q, it))) with
      | .error _ => extracted
      | .ok keyed =>
        (isort (fun a b =>
          if order = lit ("desc") then pfLe b.1 a.1 else pfLe a.1 b.1) keyed).map
          (fun p => p.2)
  let uniqueLabels := labels.foldl (fun acc l => if l ∈ acc then acc else acc ++ [l]) []
  let queryDesc := lit ("Extracted ") ++ joinSep (lit (", ")) uniqueLabels ++
    lit (" (") ++ intRepr extracted.length ++ lit (" records)")
  return { data := (pySlice sorted limit).map .dict, query := queryDesc }

/-- Python `format(v, ',.0f')` on a nonnegative rational: round ties to
even, then group with thousands separators. -/
def fmtThousands0 (q : PyFloat) : PyStr :=
  if q.num < 0 then '-' :: natGrouped (roundHalfEven (pfNeg q)).natAbs
  else natGrouped (roundHalfEven q).natAbs

/-- Python f-string `f"{v:,.0f}"` on a record value: numbers (and
bools) are formatted, everything else raises (`ValueError` on strings,
`TypeError` otherwise). -/
def fmtThousandsE (v : Value) : Except Unit PyStr :=
  match numQ v with
  | some q => .ok (fmtThousands0 q)
  | none => .error ()

/-- Two-digit zero-padded decimal (worker of the `.2f` format). -/
def pad2 (m : Nat) : PyStr := if m < 10 then '0' :: (toString m).data else (toString m).data

/-- Python `format(v, '.2f')` on a nonnegative rational. -/
def fmt2pos (q : PyFloat) : PyStr :=
  let n := (roundHalfEven (pfMul q (pf 100))).natAbs
  (toString (n / 100)).data ++ '.' :: pad2 (n % 100)

/-- Python f-string `f"{v:.2f}"` on a record value. -/
def fmt2fE (v : Value) : Except Unit PyStr :=
  match numQ v with
  | some q => .ok (if q.num < 0 then '-' :: fmt2pos (pfNeg q) else fmt2pos q)
  | none => .error ()

/-- The sum `sum(float(item.get("totals", 0) or 0) for item in items if
isinstance(item, dict))` of `_get_project_overview`. -/
def sumTotalsE (items : List Value) : Except Unit PyFloat :=
  items.foldlM
    (fun acc it =>
      match it with
      | .dict d =>
        (floatOfValue (let v := recGetD d (lit ("totals")) (.int 0)
                       if truthy v then v else .int 0)).map (fun q => pfAdd acc q)
      | _ => pure acc)
    (pf 0)

/-- The per-subtable count summary of `_get_project_overview`. -/
def subtableSummaryE (proj : Record) : Except Unit Record := do
  let entries ← SUBTABLE_LABELS.mapM (fun p =>
    match recGetD proj p.1 .null with
    | .list items =>
      if items.length > 0 then
        (sumTotalsE items).map (fun tv =>
          some (p.2, Value.str (
            if pfLt (pf 0) tv then
              intRepr items.length ++ lit (" records (Total: ") ++ fmtThousands0 tv ++ lit (")")
            else
              intRepr items.length ++ lit (" records"))))
      else pure none
    | _ => pure none)
  return entries.filterMap id

/-- One summary record of `_get_project_overview` (the dict literal of
lines 375–392 plus the sub-table map): a formatting error on a
non-numeric business field raises. -/
def overviewSummaryE (proj : Record) : Except Unit Record := do
  let g := fun (k : String) => recGetD proj (lit k) (.str [])
  let ts ← fmtThousandsE (recGetD proj (lit ("total_sales_amount")) (.int 0))
  let tp ← fmtThousandsE (recGetD proj (lit ("total_purchase_cost")) (.int 0))
  let tb ← fmtThousandsE (recGetD proj (lit ("total_billed_amount")) (.int 0))
  let gm ← fmtThousandsE (recGetD proj (lit ("gross_margin")) (.int 0))
  let pr ← fmt2fE (recGetD proj (lit ("custom_project_profitability")) (.int 0))
  let subs ← subtableSummaryE proj
  return [
    (lit ("المشروع (Project)"), g ("name")),
    (lit ("اسم المشروع (Project Name)"), g ("project_name")),
    (lit ("العميل (Customer)"), g ("customer")),
    (lit ("الشركة (Company)"), g ("company")),
    (lit ("الحالة (Status)"), g ("status")),
    (lit ("حالة المشروع (PR Status)"), g ("custom_pr_status")),
    (lit ("نوع المشروع (Type)"), g ("project_type")),
    (lit ("نوع التعاقد (Contract Type)"), g ("custom_type_of_contracts")),
    (lit ("إجمالي المبيعات (Total Sales)"), .str ts),
    (lit ("إجمالي المشتريات (Total Purchase Cost)"), .str tp),
    (lit ("إجمالي الفواتير (Total Billed)"), .str tb),
    (lit ("هامش الربح (Gross Margin)"), .str gm),
    (lit ("نسبة الربحية (Profitability %)"), .str (pr ++ lit ("%"))),
    (lit ("المورد المعتمد (Accepted Supplier)"), g ("custom_accepted_supplier")),
    (lit ("السنة المالية (Fiscal Year)"), g ("custom_project_fiscal_year")),
    (lit ("الأولوية (Priority)"), g ("priority")),
    (lit ("البيانات الفرعية (Sub-tables)"), .dict subs)]

/-- `ProcessingAgent._get_project_overview`. -/
def get_project_overviewE (st : Store) : Except Unit SqlOut :=
  let rows := storeGet st (lit ("project_59"))
  if rows.isEmpty then
    .ok { data := [], query := lit ("Project overview - no data found") }
  else
    match rows.mapM (fun r =>
      match r with
      | Value.dict d => overviewSummaryE d
      | _ => (.error () : Except Unit Record)) with
    | .ok recs => .ok { data := recs.map .dict, query := lit ("Project 59 - Full Overview") }
    | .error e => .error e

/-- `ProcessingAgent._execute_calculator`: extract the first two
`[\d.]+` runs, pick an operator by keyword priority, compute (division
by zero yields the int `0`).  Parse failures and the no-operator case
both end in the "Unable to parse calculation" result — the body's
`try/except` is internal, so this function is total. -/
def execute_calculator (q : PyStr) : SqlOut :=
  let unable : SqlOut := { data := [], query := lit ("Unable to parse calculation") }
  match findNumRuns q with
  | t1 :: t2 :: _ =>
    match parseFloat t1, parseFloat t2 with
    | some n1, some n2 =>
      let ql := lower q
      let mk := fun (expr : PyStr) (res : Value) =>
        ({ data := [.dict [(lit ("expression"), .str expr), (lit ("result"), res)]],
           query := expr } : SqlOut)
      if [lit ("add"), lit ("plus"), lit ("sum"), lit ("+")].any (fun op => subIn op ql) then
        mk (floatRepr n1 ++ lit (" + ") ++ floatRepr n2) (.float (pfAdd n1 n2))
      else if [lit ("subtract"), lit ("minus"), lit ("-")].any (fun op => subIn op ql) then
        mk (floatRepr n1 ++ lit (" - ") ++ floatRepr n2) (.float (pfSub n1 n2))
      else if [lit ("multiply"), lit ("times"), lit ("*"), lit ("x")].any (fun op => subIn op ql) then
        mk (floatRepr n1 ++ lit (" × ") ++ floatRepr n2) (.float (pfMul n1 n2))
      else if [lit ("divide"), lit ("/")].any (fun op => subIn op ql) then
        mk (floatRepr n1 ++ lit (" ÷ ") ++ floatRepr n2)
          (if n2.num ≠ 0 then .float (pfDiv n1 n2) else .int 0)
      else if subIn (lit ("percent")) ql || subIn (lit ("%")) q then
        mk (floatRepr n1 ++ lit ("% of ") ++ floatRepr n2) (.float (pfMul (pfDiv n1 (pf 100)) n2))
      else unable
    | _, _ => unable
  | _ => unable

/-- The table names of `backend.config.JSON_FILES`, in dict order
(commented-out entries of the source excluded). -/
def JSON_FILES_keys : List PyStr :=
  [lit ("users"), lit ("agents"), lit ("user_agents"), lit ("conversations"),
   lit ("settings"), lit ("project_59")]

/-- Tables skipped by the RAG scan. -/
def ragDeny : List PyStr :=
  [lit ("users"), lit ("agents"), lit ("conversations"), lit ("settings")]

/-- One scalar contribution to the RAG haystack: `f" {str(v).lower()}"`
for strings, ints, floats and bools (an int subclass in Python). -/
def hayScalar : Value → PyStr
  | .str s => ' ' :: lower s
  | .int n => ' ' :: lower (intRepr n)
  | .float q => ' ' :: lower (floatRepr q)
  | .bool b => ' ' :: (if b then lit ("true") else lit ("false"))
  | _ => []

/-- The searchable haystack of one row (`row_str` of `_execute_rag`):
scalar fields plus the scalar fields of dict items inside list
fields. -/
def hayOfRow (d : Record) : PyStr :=
  d.foldl
    (fun acc kv =>
      match kv.2 with
      | .list l =>
        acc ++ l.foldl
          (fun acc2 it =>
            match it with
            | .dict d2 => acc2 ++ d2.foldl (fun a3 kv2 => a3 ++ hayScalar kv2.2) []
            | _ => acc2)
          []
      | v => acc ++ hayScalar v)
    []

/-- The compacted row returned by the RAG search: scalar fields kept,
list fields summarized as `"[N items]"`, plus provenance and score. -/
def ragResultRow (d : Record) (table : PyStr) (count : Nat) : Record :=
  d.foldl
    (fun acc kv =>
      match kv.2 with
      | .str _ => acc ++ [kv]
      | .int _ => acc ++ [kv]
      | .float _ => acc ++ [kv]
      | .bool _ => acc ++ [kv]
      | .list l => acc ++ [(kv.1, .str ('[' :: intRepr l.length ++ lit (" items]")))]
      | _ => acc)
    []
  ++ [(lit ("_source"), .str table), (lit ("_relevance"), .int count)]

/-- The `_relevance` score of a result row (`x["_relevance"]`). -/
def relevanceOf (r : Record) : Int :=
  match recGetD r (lit ("_relevance")) (.int 0) with
  | .int n => n
  | _ => 0

/-- The body of `ProcessingAgent._execute_rag` inside its `try`:
`.error ()` marks the scans on which Python raises (e.g. a non-dict row
makes `row.items()` raise `AttributeError`). -/
def ragScanE (st : Store) (q : PyStr) : Except Unit (List Record × PyStr) := do
  let terms := (pyWords q).filterMap (fun t => if 2 < t.length then some (lower t) else none)
  let results ← JSON_FILES_keys.foldlM
    (fun acc table =>
      if table ∈ ragDeny then pure acc
      else
        (storeGet st table).foldlM
          (fun acc2 row =>
            match row with
            | .dict d =>
              let hay := hayOfRow d
              let c := terms.countP (fun t => subIn t hay)
              pure (if 0 < c then acc2 ++ [ragResultRow d table c] else acc2)
            | _ => .error ())
          acc)
    ([] : List Record)
  let sorted := isort (fun a b => decide (relevanceOf b ≤ relevanceOf a)) results
  return (sorted.take 10, lit ("Search for: ") ++ joinSep (lit (", ")) terms)

/-- `ProcessingAgent._execute_rag`: the scan with its internal
`try/except`, which converts any scan exception into an empty result
(the error message it records is dropped by the dispatcher). -/
def execute_rag (st : Store) (q : PyStr) : SqlOut :=
  match ragScanE st q with
  | .ok (rows, desc) => { data := rows.map .dict, query := desc }
  | .error _ => { data := [], query := lit ("RAG Search Failed") }

/-- The parts of the thinking agent's result dict that
`ProcessingAgent.execute` reads: `tool` (defaulted to `"sql"`),
`domain_context["tables"]`, `parameters["limit"]`, `parameters["order"]`
(the latter two may be absent). -/
structure ThinkingResult where
  tool? : Option PyStr
  tables : List PyStr
  limit? : Option Int
  order? : Option PyStr

/-- English overview keywords of `_execute_sql`. -/
def overviewEn : List PyStr :=
  [lit ("overview"), lit ("summary"), lit ("all data"), lit ("show project"),
   lit ("project data"), lit ("project details"), lit ("about project")]

/-- Arabic overview keywords of `_execute_sql`. -/
def overviewAr : List PyStr :=
  [lit ("بيانات المشروع"), lit ("ملخص المشروع"), lit ("عرض المشروع"),
   lit ("تفاصيل المشروع"), lit ("نظرة عامة"), lit ("عن المشروع"), lit ("كل بيانات")]

/-- `ProcessingAgent._execute_sql`: overview short-circuit, subtable
extraction, or the fallback pseudo-SQL against the store.  `.error ()`
marks the inputs on which the Python method raises (only reachable
through the overview/extraction paths; the interpreter itself catches
its own errors). -/
def execute_sqlE (st : Store) (q : PyStr) (tr : ThinkingResult) : Except Unit SqlOut :=
  let tables := tr.tables
  let limit := tr.limit?.getD 50
  let order := tr.order?.getD (lit ("desc"))
  let tables := if tables.isEmpty then [lit ("project_59")] else tables
  let ql := lower q
  let isOverview := overviewEn.any (fun kw => subIn kw ql) || overviewAr.any (fun kw => subIn kw q)
  if isOverview && decide ((lit ("project_59")) ∈ tables) then get_project_overviewE st
  else
    match subtableScan q with
    | some kw => extract_subtable_dataE st (subtableMapGet kw) limit order
    | none =>
      let primary := tables.headD []
      let primary :=
        if subIn (lit ("project")) ql || subIn (lit ("مشروع")) q then
          if (lit ("project_59")) ∈ tables then lit ("project_59") else primary
        else if subIn (lit ("inventory")) ql && decide ((lit ("inventory")) ∈ tables) then
          lit ("inventory")
        else if subIn (lit ("sales")) ql || subIn (lit ("مبيعات")) q then
          if decide ((lit ("sales")) ∈ tables) && ¬(storeGet st (lit ("sales"))).isEmpty then
            lit ("sales")
          else if (lit ("project_59")) ∈ tables then lit ("project_59")
          else primary
        else primary
      let sql :=
        if subIn (lit ("top")) ql || subIn (lit ("ranking")) ql ||
           subIn (lit ("project")) ql || subIn (lit ("مشروع")) q then
          if primary = lit ("project_59") then
            lit ("SELECT * FROM project_59 ORDER BY total_sales_amount ") ++ order ++
              lit (" LIMIT ") ++ intRepr limit
          else if primary = lit ("sales") then
            lit ("SELECT * FROM sales ORDER BY amount ") ++ order ++
              lit (" LIMIT ") ++ intRepr limit
          else if primary = lit ("inventory") then
            lit ("SELECT * FROM inventory ORDER BY quantity ") ++ order ++
              lit (" LIMIT ") ++ intRepr limit
          else
            lit ("SELECT * FROM ") ++ primary ++ lit (" LIMIT ") ++ intRepr limit
        else if subIn (lit ("total")) ql || subIn (lit ("sum")) ql ||
                subIn (lit ("إجمالي")) q || subIn (lit ("مجموع")) q then
          lit ("SELECT * FROM ") ++ primary
        else
          lit ("SELECT * FROM ") ++ primary ++ lit (" LIMIT ") ++ intRepr limit
      let data := execute_query st sql
      let data := if data.isEmpty then pySlice (storeGet st primary) limit else data
      .ok { data := data, query := sql }

/-- The result dict of `ProcessingAgent.execute`: the `error` key is
only present on the failure path, `generated_query` only on the success
path, mirrored by `has_error` / the option. -/
structure DispatchResult where
  data : List Value
  row_count : Nat
  generated_query : Option PyStr
  tool_used : PyStr
  success : Bool
  has_error : Bool

/-- The success wrapper of `ProcessingAgent.execute` (lines 202–208). -/
def wrapOk (r : SqlOut) (tool : PyStr) : DispatchResult :=
  { data := r.data, row_count := r.data.length, generated_query := some r.query,
    tool_used := tool, success := true, has_error := false }

/-- `ProcessingAgent.execute`: tool dispatch with the boundary
`try/except` that converts an escaping exception into
`{data: [], success: False, error: ...}`.  Only the SQL branch can
raise, because the calculator and the RAG tool catch internally. -/
def execute (st : Store) (q : PyStr) (tr : ThinkingResult) (allowedAgents : List PyStr) :
    DispatchResult :=
  let _ := allowedAgents
  let tool := tr.tool?.getD (lit ("sql"))
  let sqlCase := fun (_ : Unit) =>
    match execute_sqlE st q tr with
    | .ok r => wrapOk r tool
    | .error _ =>
      { data := [], row_count := 0, generated_query := none, tool_used := tool,
        success := false, has_error := true }
  if tool = lit ("sql") then sqlCase ()
  else if tool = lit ("calculator") then wrapOk (execute_calculator q) tool
  else if tool = lit ("rag") then wrapOk (execute_rag st q) tool
  else sqlCase ()

/-!  `ThinkingAgent` (`backend/ai_agent/agents/thinking_agent.py`) and
the domain catalog of `backend/config.py`.  -/

/-- The `keywords` lists of `backend.config.DOMAIN_AGENTS`, in dict
order (the only part of the catalog read by `_identify_domains`). -/
def DOMAIN_AGENT_KEYWORDS : List (PyStr × List PyStr) := [
  (lit ("sales"),
    [lit ("sales"), lit ("revenue"), lit ("sold"), lit ("customer"),
     lit ("top items"), lit ("project"), lit ("contract"), lit ("opportunity")]),
  (lit ("inventory"),
    [lit ("inventory"), lit ("stock"), lit ("warehouse"), lit ("reorder"), lit ("quantity")]),
  (lit ("purchasing"),
    [lit ("purchase"), lit ("vendor"), lit ("supplier"), lit ("lead time"), lit ("order")]),
  (lit ("accounting"),
    [lit ("cost"), lit ("margin"), lit ("profit"), lit ("pricing"), lit ("financial")]),
  (lit ("projects"),
    [lit ("project"), lit ("status"), lit ("profitability"), lit ("completion"), lit ("contract")])]

/-- `ThinkingAgent.ARABIC_DOMAIN_KEYWORDS`, in dict order. -/
def ARABIC_DOMAIN_KEYWORDS : List (PyStr × List PyStr) := [
  (lit ("projects"),
    [lit ("مشروع"), lit ("مشاريع"), lit ("حالة المشروع"), lit ("بيانات المشروع")]),
  (lit ("sales"),
    [lit ("مبيعات"), lit ("إيرادات"), lit ("عميل"), lit ("فاتورة"), lit ("فواتير"),
     lit ("أمر بيع"), lit ("أوامر بيع"), lit ("توريد")]),
  (lit ("inventory"),
    [lit ("مخزون"), lit ("مخازن"), lit ("كمية"), lit ("إعادة طلب")]),
  (lit ("purchasing"),
    [lit ("مشتريات"), lit ("مورد"), lit ("موردين"), lit ("أمر شراء"), lit ("طلب شراء")]),
  (lit ("accounting"),
    [lit ("تكلفة"), lit ("ربح"), lit ("هامش"), lit ("مالي"), lit ("محاسبة"), lit ("ضريبة")])]

/-- The domain list accumulated by `_identify_domains` before the
fallback default: the English catalog scan followed by the Arabic scan,
each appending a domain once on its first keyword hit. -/
def domainsRaw (q : PyStr) : List PyStr :=
  let ql := lower q
  let ds := DOMAIN_AGENT_KEYWORDS.foldl
    (fun acc p =>
      if p.2.any (fun kw => subIn (lower kw) ql) && decide (p.1 ∉ acc) then acc ++ [p.1]
      else acc)
    []
  ARABIC_DOMAIN_KEYWORDS.foldl
    (fun acc p =>
      if p.2.any (fun kw => subIn kw q) && decide (p.1 ∉ acc) then acc ++ [p.1]
      else acc)
    ds

/-- `ThinkingAgent._identify_domains`: the accumulated domains, or the
`["projects"]` fallback when nothing matched. -/
def identify_domains (q : PyStr) : List PyStr :=
  let ds := domainsRaw q
  if ds = [] then [lit ("projects")] else ds

/-- The domain fields of the Intent built by `ThinkingAgent.analyze`
(lines 34–39): required domains and their split against the caller's
allow-list. -/
structure Intent where
  required_domains : List PyStr
  allowed_domains : List PyStr
  blocked_domains : List PyStr

/-- Lines 34–39 of `ThinkingAgent.analyze`: identify domains, then
filter them against `allowed_agents`. -/
def analyze_domains (q : PyStr) (allowedAgents : List PyStr) : Intent :=
  { required_domains := identify_domains q,
    allowed_domains := (identify_domains q).filter (fun d => decide (d ∈ allowedAgents)),
    blocked_domains := (identify_domains q).filter (fun d => decide (d ∉ allowedAgents)) }

/-!  `VisualizationAgent` (`backend/ai_agent/agents/visualization_agent.py`).  -/

/-- The eight-color chart palette. -/
def chartColors : List PyStr :=
  [lit ("#6366F1"), lit ("#8B5CF6"), lit ("#EC4899"), lit ("#10B981"),
   lit ("#F59E0B"), lit ("#3B82F6"), lit ("#EF4444"), lit ("#14B8A6")]

/-- The date-like column names of `_determine_chart_type`. -/
def dateColumns : List PyStr :=
  [lit ("date"), lit ("month"), lit ("year"), lit ("time"),
   lit ("period"), lit ("created_at")]

/-- `VisualizationAgent._determine_chart_type`: explicit chart-keyword
cascade, then structural inference (date-like column → line, at most
six rows → pie, else bar). -/
def determine_chart_type (q : PyStr) (data : List Record) : PyStr :=
  let ql := lower q
  if [lit ("pie"), lit ("distribution"), lit ("breakdown")].any (fun kw => subIn kw ql) then
    lit ("pie")
  else if [lit ("line"), lit ("trend"), lit ("over time"), lit ("timeline")].any
      (fun kw => subIn kw ql) then
    lit ("line")
  else if [lit ("bar"), lit ("ranking"), lit ("top"), lit ("compare"),
           lit ("comparison")].any (fun kw => subIn kw ql) then
    lit ("bar")
  else
    match data with
    | [] => lit ("bar")
    | first :: _ =>
      let keys := first.map (fun p => p.1)
      if dateColumns.any (fun c => decide (c ∈ keys)) then lit ("line")
      else if data.length ≤ 6 then lit ("pie")
      else lit ("bar")

/-- The twelve explicit chart keywords of `_determine_chart_type`
(pie, line and bar cascades combined). -/
def chartKeywords : List PyStr :=
  [lit ("pie"), lit ("distribution"), lit ("breakdown"),
   lit ("line"), lit ("trend"), lit ("over time"), lit ("timeline"),
   lit ("bar"), lit ("ranking"), lit ("top"), lit ("compare"), lit ("comparison")]

/-- Whether the query mentions none of the explicit chart keywords, so
that `_determine_chart_type` falls through to structural inference. -/
def noExplicitChartKw (q : PyStr) : Bool :=
  chartKeywords.all (fun kw => !(subIn kw (lower q)))

/-- The label-column priority list of `_extract_chart_data`. -/
def labelCandidates : List PyStr :=
  [lit ("reference_name"), lit ("project_name"), lit ("title"), lit ("customer"),
   lit ("supplier"), lit ("item"), lit ("product"), lit ("category"), lit ("label"),
   lit ("type"), lit ("reference_type"), lit ("doctype"), lit ("description"),
   lit ("doc_details"), lit ("agent"), lit ("project"), lit ("name")]

/-- The value-column candidate list of `_extract_chart_data`. -/
def valueCandidates : List PyStr :=
  [lit ("amount"), lit ("total"), lit ("quantity"), lit ("value"), lit ("count"),
   lit ("sales"), lit ("revenue"), lit ("price"), lit ("cost"), lit ("totals"),
   lit ("profit"), lit ("margin")]

/-- Python `isinstance(v, (int, float))` (bools are ints in Python). -/
def isNumV : Value → Bool
  | .int _ => true
  | .float _ => true
  | .bool _ => true
  | _ => false

/-- Python `isinstance(v, str)`. -/
def isStrV : Value → Bool
  | .str _ => true
  | _ => false

/-- Label-column inference of `_extract_chart_data`: first candidate
present among the keys (case-insensitively), else the first string
column other than `id`. -/
def pickLabelCol (keys : List PyStr) (firstRow : Record) : Option PyStr :=
  match labelCandidates.find? (fun col => keys.any (fun k => decide (lower k = lower col))) with
  | some col => keys.find? (fun k => decide (lower k = lower col))
  | none =>
    keys.find? (fun k =>
      isStrV (recGetD firstRow k .null) && decide (lower k ≠ lit ("id")))

/-- Value-column inference of `_extract_chart_data`: exact candidate
match, else a numeric column whose name contains a candidate, else the
first numeric non-identifier column. -/
def pickValueCol (keys : List PyStr) (firstRow : Record) : Option PyStr :=
  match valueCandidates.find? (fun col => keys.any (fun k => decide (lower k = lower col))) with
  | some col => keys.find? (fun k => decide (lower k = lower col))
  | none =>
    match keys.find? (fun k =>
        isNumV (recGetD firstRow k .null) && decide (lower k ≠ lit ("id")) &&
        valueCandidates.any (fun vc => subIn vc (lower k))) with
    | some k => some k
    | none =>
      keys.find? (fun k =>
        isNumV (recGetD firstRow k .null) && decide (lower k ≠ lit ("id")) &&
        ¬(lit ("id")).isSuffixOf (lower k))

/-- `VisualizationAgent._generate_chart_title`: strip, capitalize the
first character, drop trailing question marks, truncate to 60 with an
ellipsis. -/
def generate_chart_title (q : PyStr) (chartType : PyStr) : PyStr :=
  let _ := chartType
  let t := stripWs q
  let t := match t with
    | [] => []
    | c :: rest => upperChar c :: rest
  let t := rstripQm t
  if 60 < t.length then t.take 57 ++ lit ("...") else t

/-- Worker for Python `str.title` (tracks whether the previous
character was a letter). -/
def pyTitleGo (prevAlpha : Bool) : PyStr → PyStr
  | [] => []
  | c :: rest =>
    let isA := c.isAlpha
    (if isA && !prevAlpha then upperChar c else if isA then lowerChar c else c) ::
      pyTitleGo isA rest

/-- Python `str.title` (ASCII case mapping). -/
def pyTitle (s : PyStr) : PyStr := pyTitleGo false s

/-- `VisualizationAgent._get_chart_options`: preset options per chart
type on top of the shared base options, in dict-merge order. -/
def chart_options (ct : PyStr) : Record :=
  let base : Record := [(lit ("responsive"), .bool true),
                        (lit ("maintainAspectRatio"), .bool true),
                        (lit ("animation"), .bool true)]
  if ct = lit ("pie") then
    base ++ [(lit ("cutout"), .str (lit ("50%"))), (lit ("showLegend"), .bool true)]
  else if ct = lit ("line") then
    base ++ [(lit ("fill"), .bool true), (lit ("tension"), .float ⟨2, 5⟩),
             (lit ("showGridLines"), .bool true)]
  else if ct = lit ("bar") then
    base ++ [(lit ("horizontal"), .bool false), (lit ("showGridLines"), .bool true),
             (lit ("barPercentage"), .float ⟨4, 5⟩)]
  else base

/-- The chart dict built by `_extract_chart_data` (field names follow
the source's `chart_data` / `datasets[0]` / `metadata` keys). -/
structure Chart where
  type : PyStr
  title : PyStr
  labels : List PyStr
  datasetLabel : PyStr
  values : List PyFloat
  backgroundColor : List PyStr
  borderColor : List PyStr
  options : Record
  labelColumn : PyStr
  valueColumn : PyStr
  dataCount : Nat

/-- `VisualizationAgent._extract_chart_data`: infer label/value columns
from the first row, then build the labels with `str(...)` and the
values with the unguarded `float(...)` — `.error ()` marks the inputs
on which that conversion raises; `.ok none` is the Python `None`
(no usable columns or empty data). -/
def extract_chart_dataE (data : List Record) (ct q : PyStr) : Except Unit (Option Chart) :=
  match data with
  | [] => .ok none
  | first :: _ =>
    match pickLabelCol (first.map (fun p => p.1)) first,
          pickValueCol (first.map (fun p => p.1)) first with
    | some lc, some vc =>
      match data.mapM (fun r => floatOfValue (recGetD r vc (.int 0))) with
      | .error _ => .error ()
      | .ok vals =>
        let labels := data.map (fun r => toPyStr (recGetD r lc (.str [])))
        let colors := (List.range labels.length).map
          (fun i => chartColors.getD (i % chartColors.length) [])
        .ok (some {
          type := ct,
          title := generate_chart_title q ct,
          labels := labels,
          datasetLabel := pyTitle (pyReplace vc (lit ("_")) (lit (" "))),
          values := vals,
          backgroundColor := colors,
          borderColor := colors,
          options := chart_options ct,
          labelColumn := lc,
          valueColumn := vc,
          dataCount := data.length })
    | _, _ => .ok none

/-- The dict returned by `VisualizationAgent.generate` (`chart_type`
absent on the empty-data early return). -/
structure GenOut where
  chartData : Option Chart
  chartType : Option PyStr

/-- `VisualizationAgent.generate`: empty data short-circuits to a null
chart; otherwise determine the type and extract the chart data
(`.error ()` marks the inputs on which the unguarded numeric
conversion raises). -/
def generateE (q : PyStr) (data : List Record) : Except Unit GenOut :=
  if data.isEmpty then .ok { chartData := none, chartType := none }
  else
    let ct := determine_chart_type q data
    (extract_chart_dataE data ct q).map
      (fun cd => { chartData := cd, chartType := some ct })

/-!  Concrete fixtures used by the witnesses and counterexamples.  -/

/-- A one-row sales table. -/
def salesStore : Store := [(lit ("sales"), [Value.dict [(lit ("amount"), .int 10)]])]

/-- A query whose LIMIT token is not an integer, so `int()` raises
after the base rows were already loaded. -/
def badLimitSql : PyStr := lit ("select * from sales limit x")

/-- A store whose `user_agents` table holds a non-dict row, which makes
the RAG scan raise `AttributeError` on `row.items()`. -/
def ragCrashStore : Store :=
  [(lit ("user_agents"), [Value.str (lit ("junk"))]), (lit ("project_59"), [])]

/-- A thinking result selecting the RAG tool. -/
def ragThinking : ThinkingResult :=
  { tool? := some (lit ("rag")), tables := [], limit? := none, order? := none }

/-- A store whose single project row carries a non-numeric
`total_sales_amount`, so the overview formatting raises. -/
def overviewCrashStore : Store :=
  [(lit ("project_59"), [Value.dict [(lit ("total_sales_amount"), .str (lit ("bad")))]])]

/-- A thinking result routing an overview query to the SQL tool with
`project_59` in scope. -/
def overviewThinking : ThinkingResult :=
  { tool? := some (lit ("sql")), tables := [lit ("project_59")], limit? := none, order? := none }

/-- The bank-guarantee subtable fixture of the spec's test: items with
totals 500, 200 and the non-numeric string. -/
def bgProject : Record :=
  [(lit ("name"), .str (lit ("PRJ-59"))),
   (lit ("project_name"), .str (lit ("Main Project"))),
   (sendBgK, .list [
     .dict [(lit ("totals"), .int 500)],
     .dict [(lit ("totals"), .int 200)],
     .dict [(lit ("totals"), .str (lit ("n/a")))]])]

/-- Store holding only the bank-guarantee fixture project. -/
def bgStore : Store := [(lit ("project_59"), [Value.dict bgProject])]

/-- The flattened bank-guarantee items in extraction order. -/
def bgExtracted : List Value :=
  [.dict [(lit ("_source_table"), .str (subtableLabel sendBgK)),
          (lit ("_project_name"), .str (lit ("Main Project"))),
          (lit ("_project_id"), .str (lit ("PRJ-59"))),
          (lit ("totals"), .int 500)],
   .dict [(lit ("_source_table"), .str (subtableLabel sendBgK)),
          (lit ("_project_name"), .str (lit ("Main Project"))),
          (lit ("_project_id"), .str (lit ("PRJ-59"))),
          (lit ("totals"), .int 200)],
   .dict [(lit ("_source_table"), .str (subtableLabel sendBgK)),
          (lit ("_project_name"), .str (lit ("Main Project"))),
          (lit ("_project_id"), .str (lit ("PRJ-59"))),
          (lit ("totals"), .str (lit ("n/a")))]]

/-- Two dict rows with sales amounts (WHERE-filter witness data). -/
def amountRows : List Value :=
  [Value.dict [(lit ("amount"), .int 10)], Value.dict [(lit ("amount"), .int 50)]]

/-- A four-row result set whose rows carry a `month` column. -/
def monthRows : List Record :=
  List.replicate 4 [(lit ("month"), .str (lit ("Jan"))), (lit ("v"), .int 1)]

/-- A five-row result set with no date-like column. -/
def fiveRows : List Record :=
  List.replicate 5 [(lit ("name"), .str (lit ("a"))), (lit ("v"), .int 1)]

/-- An eight-row result set with no date-like column. -/
def eightRows : List Record :=
  List.replicate 8 [(lit ("name"), .str (lit ("a"))), (lit ("v"), .int 1)]

/-- A single well-behaved chart row. -/
def chartRows : List Record := [[(lit ("name"), .str (lit ("a"))), (lit ("amount"), .int 5)]]

/-- The chart the inferencer produces for `chartRows` on a pie chart
with query `"chart"`. -/
def chartSpec : Chart :=
  { type := lit ("pie"),
    title := lit ("Chart"),
    labels := [lit ("a")],
    datasetLabel := lit ("Amount"),
    values := [pf 5],
    backgroundColor := [lit ("#6366F1")],
    borderColor := [lit ("#6366F1")],
    options := chart_options (lit ("pie")),
    labelColumn := lit ("name"),
    valueColumn := lit ("amount"),
    dataCount := 1 }

/-- Rows whose first entry has a numeric `amount` but a later row holds
the non-convertible string, the unstated-precondition violation of the
chart-data extraction. -/
def mixedValueRows : List Record :=
  [[(lit ("name"), .str (lit ("a"))), (lit ("amount"), .int 5)],
   [(lit ("name"), .str (lit ("b"))), (lit ("amount"), .str (lit ("n/a")))]]

/-!  Theorems.  -/

/-- Replacement of a pattern that does not contain `c` can never remove
an occurrence of `c`. -/
theorem mem_replF (c : Char) :
    ∀ (f : Nat) (s t u : PyStr), c ∈ s → c ∉ t → c ∈ replF f s t u := by
  intro f
  induction f with
  | zero => intro s t u hs _; simpa [replF] using hs
  | succ f ih =>
    intro s t u hs ht
    match s with
    | [] => cases hs
    | a :: s' =>
      rw [replF]
      by_cases hp : t ≠ [] ∧ t.isPrefixOf (a :: s')
      · rw [if_pos hp]
        have hpre : t <+: a :: s' := by
          have := hp.2
          rwa [List.isPrefixOf_iff_prefix] at this
        obtain ⟨rest, hrest⟩ := hpre
        have hcrest : c ∈ rest := by
          rw [← hrest] at hs
          rcases List.mem_append.mp hs with h | h
          · exact absurd h ht
          · exact h
        have hdrop : List.drop t.length (a :: s') = rest := by
          rw [← hrest]; exact List.drop_left t rest
        rw [hdrop]
        exact List.mem_append.mpr (Or.inr (ih rest t u hcrest ht))
      · rw [if_neg hp]
        rcases List.mem_cons.mp hs with rfl | h
        · exact List.mem_cons_self _ _
        · exact List.mem_cons_of_mem _ (ih s' t u h ht)

/-- `pyReplace` version of `mem_replF`. -/
theorem mem_pyReplace (c : Char) (s t u : PyStr) (hs : c ∈ s) (ht : c ∉ t) :
    c ∈ pyReplace s t u :=
  mem_replF c s.length s t u hs ht

/-- The substitution fold of `_apply_where` keeps any character that
occurs in the clause but in none of the record's keys. -/
theorem mem_substFold (c : Char) :
    ∀ (d : Record) (cond : PyStr), c ∈ cond → (∀ kv ∈ d, c ∉ kv.1) →
      c ∈ d.foldl substOne cond := by
  intro d
  induction d with
  | nil => intro cond hc _; simpa using hc
  | cons kv rest ih =>
    intro cond hc hk
    rw [List.foldl_cons]
    refine ih _ ?_ (fun kv2 h2 => hk kv2 (List.mem_cons_of_mem _ h2))
    unfold substOne
    by_cases hin : subIn kv.1 cond = true
    · rw [if_pos hin]
      exact mem_pyReplace c cond kv.1 _ hc (hk kv (List.mem_cons_self _ _))
    · rw [if_neg hin]; exact hc

/-- Claim C4 (amended): for every table contents (dict rows whose keys
contain no comparison character) and every WHERE clause containing a
`>` or `<` comparison character (as in `>`, `<`, `>=`, `<=`), the
interpreter's WHERE filter is skipped entirely: every row is kept, and
no error is raised (the embedded `apply_where` is a total function).
This does not extend to every non-equality comparison operator: a `!=`
clause still contains `=` and no `>`/`<`, so it falls into the
single-equality branch and can drop rows. -/
theorem where_nonequality_keeps_all_rows (records : List Value) (clause : PyStr)
    (hop : ('>') ∈ clause ∨ ('<') ∈ clause)
    (hrec : ∀ r ∈ records, ∃ d, r = Value.dict d ∧
      ∀ kv ∈ d, (('>') ∉ kv.1 ∧ ('<') ∉ kv.1)) :
    apply_where records clause = records := by
  unfold apply_where
  rw [List.filter_eq_self]
  intro r hr
  obtain ⟨d, rfl, hkeys⟩ := hrec r hr
  simp only [keepsRow]
  have hcond : ('>') ∈ d.foldl substOne clause ∨ ('<') ∈ d.foldl substOne clause := by
    rcases hop with h | h
    · exact Or.inl (mem_substFold _ d clause h (fun kv hkv => (hkeys kv hkv).1))
    · exact Or.inr (mem_substFold _ d clause h (fun kv hkv => (hkeys kv hkv).2))
  rw [if_neg]
  rintro ⟨-, hgt, hlt⟩
  rcases hcond with h | h
  · exact hgt h
  · exact hlt h

/-- Counterexample to C4 as stated: the clause `amount != 20` contains
a comparison operator other than a single equality, yet the filter is
not skipped — for the row `{amount: 10}` the substituted condition
`10 != 20` contains `=` and neither `>` nor `<`, so `_apply_where`
takes its equality branch, splits on `=`, compares `10 !` with `20`,
and drops the row; on this table every row is dropped, the opposite of
"every row of the table is kept". -/
theorem neq_clause_drops_rows :
    apply_where amountRows (lit ("amount != 20")) = [] ∧
    apply_where amountRows (lit ("amount != 20")) ≠ amountRows := by
  refine ⟨rfl, ?_⟩
  rw [show apply_where amountRows (lit ("amount != 20")) = [] from rfl, amountRows]
  intro hx
  exact List.noConfusion hx

/-- Witness for the amended C4 at a concrete table and clause:
`amount > 20` keeps both rows. -/
theorem where_nonequality_keeps_all_rows_witness :
    apply_where amountRows (lit ("amount > 20")) = amountRows := by
  refine where_nonequality_keeps_all_rows amountRows (lit ("amount > 20"))
    (Or.inl (by decide)) ?_
  intro r hr
  have : r = Value.dict [(lit ("amount"), Value.int 10)] ∨
      r = Value.dict [(lit ("amount"), Value.int 50)] := by
    simpa [amountRows] using hr
  rcases this with rfl | rfl
  · exact ⟨_, rfl, by decide⟩
  · exact ⟨_, rfl, by decide⟩

/-- Claim C1 (amended): when the interpreter body raises at any stage,
the exception is caught and `execute_query` returns exactly the rows
the Python local `results` held at the moment of the raise — which may
be a partial (even full, untruncated) row set, not necessarily the
empty one; no exception propagates (the embedded `execute_query` is a
total function). -/
theorem execute_query_catch_returns_partial (st : Store) (sql : PyStr)
    (h : executeQueryE st sql = .error ()) :
    rowsAtFailure st sql = some (execute_query st sql) := by
  unfold executeQueryE at h
  unfold rowsAtFailure execute_query
  cases hq : queryTrace st sql <;> rw [hq] at h <;> simp_all

/-- Witness for the amended C1 at the concrete failing query. -/
theorem execute_query_catch_returns_partial_witness :
    rowsAtFailure salesStore badLimitSql = some (execute_query salesStore badLimitSql) :=
  execute_query_catch_returns_partial salesStore badLimitSql rfl

/-- Counterexample to C1 as stated: on `select * from sales limit x`
the `int()` of the LIMIT stage raises after the table was loaded, and
`execute_query` returns the full one-row table — a non-empty result,
not the empty result set the claim promises. -/
theorem execute_query_exception_not_empty :
    executeQueryE salesStore badLimitSql = .error () ∧
    execute_query salesStore badLimitSql = [Value.dict [(lit ("amount"), Value.int 10)]] ∧
    execute_query salesStore badLimitSql ≠ [] := by
  refine ⟨rfl, rfl, ?_⟩
  rw [show execute_query salesStore badLimitSql =
    [Value.dict [(lit ("amount"), Value.int 10)]] from rfl]
  exact List.cons_ne_nil _ _

/-- Claim C3: on the fixture whose bank-guarantee subtable holds totals
500, 200 and the non-numeric string, extraction with `order = desc`
completes without an exception (the sort's `ValueError` is caught), the
result is left in extraction order, and its first element is the
totals-500 item. -/
theorem subtable_nonnumeric_sort_order :
    extract_subtable_dataE bgStore [sendBgK] 50 (lit ("desc")) =
      .ok { data := bgExtracted,
            query := lit ("Extracted خطابات الضمان البنكية (Bank Guarantees) (3 records)") } ∧
    bgExtracted.head? = some (.dict
      [(lit ("_source_table"), .str (subtableLabel sendBgK)),
       (lit ("_project_name"), .str (lit ("Main Project"))),
       (lit ("_project_id"), .str (lit ("PRJ-59"))),
       (lit ("totals"), .int 500)]) :=
  ⟨rfl, rfl⟩

/-- Claim C6: the calculator returns `{expression: "12.0 + 8.0",
result: 20.0}` on "what is 12 + 8", result 60.0 on "30 percent of
200", and the int `0` (no exception — the embedded function is total)
on "10 / 0". -/
theorem calculator_examples :
    execute_calculator (lit ("what is 12 + 8")) =
      { data := [.dict [(lit ("expression"), .str (lit ("12.0 + 8.0"))),
                        (lit ("result"), .float (pf 20))]],
        query := lit ("12.0 + 8.0") } ∧
    (execute_calculator (lit ("30 percent of 200"))).data =
      [.dict [(lit ("expression"), .str (lit ("30.0% of 200.0"))),
              (lit ("result"), .float (pf 60))]] ∧
    (execute_calculator (lit ("10 / 0"))).data =
      [.dict [(lit ("expression"), .str (lit ("10.0 ÷ 0.0"))),
              (lit ("result"), .int 0)]] :=
  ⟨rfl, rfl, rfl⟩

/-- Claim C10: `generate` is not total on non-empty inputs — on rows
whose first entry has a numeric `amount` while a later row holds the
string "n/a" there, the unguarded `float()` raises instead of
returning a chart or `None`. -/
theorem viz_value_conversion_raises :
    mixedValueRows ≠ [] ∧
    generateE (lit ("show amounts")) mixedValueRows = .error () := by
  constructor
  · rw [mixedValueRows]; exact List.cons_ne_nil _ _
  · rfl

/-- Claim C2 (amended): the dispatcher's boundary `try/except` converts
an exception escaping the selected tool into `{rows: [], success:
false, error: ...}` — and only the SQL branch can raise: the calculator
and the RAG tool catch their own exceptions internally and return
normally, so their failures surface as `success = true` with whatever
(possibly empty) rows the internal handler produced, not as
`success = false`. -/
theorem dispatch_success_false_characterization (st : Store) (q : PyStr)
    (tr : ThinkingResult) (aa : List PyStr) :
    ((execute st q tr aa).success = false ↔
      (tr.tool?.getD (lit ("sql")) ≠ lit ("calculator") ∧
       tr.tool?.getD (lit ("sql")) ≠ lit ("rag") ∧
       execute_sqlE st q tr = .error ())) ∧
    ((execute st q tr aa).success = false →
      (execute st q tr aa).data = [] ∧ (execute st q tr aa).has_error = true) := by
  unfold execute
  have hne1 : lit ("sql") ≠ lit ("calculator") := by decide
  have hne2 : lit ("sql") ≠ lit ("rag") := by decide
  by_cases hsql : tr.tool?.getD (lit ("sql")) = lit ("sql")
  · cases hs : execute_sqlE st q tr <;> simp_all [wrapOk]
  · by_cases hcalc : tr.tool?.getD (lit ("sql")) = lit ("calculator")
    · simp_all [wrapOk]
    · by_cases hrag : tr.tool?.getD (lit ("sql")) = lit ("rag")
      · simp_all [wrapOk]
      · cases hs : execute_sqlE st q tr <;> simp_all [wrapOk]

/-- Witness for the amended C2: a store whose project row has a
non-numeric `total_sales_amount` makes the overview path raise, and the
dispatcher reports `success = false` with an empty row set. -/
theorem dispatch_success_false_witness :
    (execute overviewCrashStore (lit ("project overview")) overviewThinking []).success = false ∧
    (execute overviewCrashStore (lit ("project overview")) overviewThinking []).data = [] := by
  have h := dispatch_success_false_characterization overviewCrashStore
    (lit ("project overview")) overviewThinking []
  have hfail : (execute overviewCrashStore (lit ("project overview"))
      overviewThinking []).success = false :=
    h.1.mpr ⟨by decide, by decide, rfl⟩
  exact ⟨hfail, (h.2 hfail).1⟩

/-- Counterexample to C2 as stated: a non-dict row in a scanned table
makes the RAG scan raise, but `_execute_rag` catches that exception
itself and returns normally, so the dispatcher reports
`success = true` (with empty rows), not the `success = false` the claim
promises for a RAG-scan exception. -/
theorem rag_error_reports_success_true :
    ragScanE ragCrashStore (lit ("find something")) = .error () ∧
    (execute ragCrashStore (lit ("find something")) ragThinking []).success = true ∧
    (execute ragCrashStore (lit ("find something")) ragThinking []).data = [] :=
  ⟨rfl, rfl, rfl⟩

/-- The length-descending keyword order puts the three keywords longer
than `bank guarantee` (16, 16 and 15 characters) in front of it. -/
theorem sortedKeywords_decomp :
    sortedKeywords =
      lit ("purchase invoice") :: lit ("فواتير المشتريات") :: lit ("فواتير المبيعات") ::
      lit ("bank guarantee") :: sortedKeywords.drop 4 := by decide

/-- Claim C5 (amended): when a query contains both `bank guarantee` and
`bank` and none of the three strictly longer keywords
(`purchase invoice`, `فواتير المشتريات`, `فواتير المبيعات`), the
subtable keyword scan matches `bank guarantee` — in particular the bare
`bank` never wins, because keywords are tried in length-descending
order with first containment winning. -/
theorem bank_guarantee_beats_bank (q : PyStr)
    (hbg : subIn (lit ("bank guarantee")) q = true)
    (_hb : subIn (lit ("bank")) q = true)
    (h1 : subIn (lit ("purchase invoice")) (lower q) = false)
    (h2 : subIn (lit ("purchase invoice")) q = false)
    (h3 : subIn (lit ("فواتير المشتريات")) (lower q) = false)
    (h4 : subIn (lit ("فواتير المشتريات")) q = false)
    (h5 : subIn (lit ("فواتير المبيعات")) (lower q) = false)
    (h6 : subIn (lit ("فواتير المبيعات")) q = false) :
    subtableScan q = some (lit ("bank guarantee")) := by
  unfold subtableScan
  rw [sortedKeywords_decomp]
  simp [List.find?, h1, h2, h3, h4, h5, h6, hbg]

/-- Witness for the amended C5 at a concrete query. -/
theorem bank_guarantee_beats_bank_witness :
    subtableScan (lit ("bank guarantee status")) = some (lit ("bank guarantee")) :=
  bank_guarantee_beats_bank (lit ("bank guarantee status"))
    (by decide) (by decide) (by decide) (by decide) (by decide) (by decide)
    (by decide) (by decide)

/-- Counterexample to C5 as stated: the query contains both
`bank guarantee` and `bank`, yet the scan matches the longer keyword
`purchase invoice`, whose mapped subtable keys differ from the
bank-guarantee keys. -/
theorem longer_keyword_preempts_bank_guarantee :
    subIn (lit ("bank guarantee")) (lit ("purchase invoice and bank guarantee")) = true ∧
    subIn (lit ("bank")) (lit ("purchase invoice and bank guarantee")) = true ∧
    subtableScan (lit ("purchase invoice and bank guarantee")) =
      some (lit ("purchase invoice")) ∧
    subtableMapGet (lit ("purchase invoice")) ≠ subtableMapGet (lit ("bank guarantee")) := by
  refine ⟨rfl, rfl, by decide, by decide⟩

/-- Claim C7: the Intent's domain fields satisfy the invariants —
`required_domains` is never empty (it defaults to `["projects"]`
exactly when no English or Arabic keyword matched), and
`allowed_domains` consists of exactly those required domains present in
the allowed-agent list. -/
theorem intent_domain_invariants (q : PyStr) (agents : List PyStr) :
    (analyze_domains q agents).required_domains ≠ [] ∧
    (domainsRaw q = [] →
      (analyze_domains q agents).required_domains = [lit ("projects")]) ∧
    (∀ d, d ∈ (analyze_domains q agents).allowed_domains ↔
      (d ∈ (analyze_domains q agents).required_domains ∧ d ∈ agents)) := by
  refine ⟨?_, ?_, ?_⟩
  · unfold analyze_domains identify_domains
    by_cases h : domainsRaw q = [] <;> simp [h]
  · intro h
    unfold analyze_domains identify_domains
    simp [h]
  · intro d
    unfold analyze_domains
    simp [List.mem_filter]

/-- Witness for C7 at a keyword-free query: the fallback domain. -/
theorem intent_domain_invariants_witness :
    (analyze_domains (lit ("hello")) [lit ("projects")]).required_domains =
      [lit ("projects")] :=
  (intent_domain_invariants (lit ("hello")) [lit ("projects")]).2.1 (by decide)

/-- Claim C8: with no explicit chart keyword in the query, a 4-row
result whose first row has a `month` column is classified `line`, a
5-row result without a date-like column is classified `pie`, and an
8-row result without a date-like column is classified `bar`. -/
theorem chart_type_structural_inference (q : PyStr)
    (hq : noExplicitChartKw q = true) :
    (∀ d : List Record, d.length = 4 →
      (lit ("month")) ∈ (d.headD []).map (fun p => p.1) →
      determine_chart_type q d = lit ("line")) ∧
    (∀ d : List Record, d.length = 5 →
      (∀ c ∈ dateColumns, c ∉ (d.headD []).map (fun p => p.1)) →
      determine_chart_type q d = lit ("pie")) ∧
    (∀ d : List Record, d.length = 8 →
      (∀ c ∈ dateColumns, c ∉ (d.headD []).map (fun p => p.1)) →
      determine_chart_type q d = lit ("bar")) := by
  have hall := List.all_eq_true.mp hq
  have hx : ∀ kw ∈ chartKeywords, subIn kw (lower q) = false := by
    intro kw hkw
    simpa using hall kw hkw
  have hany : ∀ l : List PyStr, (∀ x ∈ l, x ∈ chartKeywords) →
      l.any (fun kw => subIn kw (lower q)) = false := by
    intro l hsub
    refine List.any_eq_false.mpr ?_
    intro x hx2
    have hfx := hx x (hsub x hx2)
    simp [hfx]
  have hpie := hany [lit ("pie"), lit ("distribution"), lit ("breakdown")] (by decide)
  have hline := hany [lit ("line"), lit ("trend"), lit ("over time"), lit ("timeline")]
    (by decide)
  have hbar := hany [lit ("bar"), lit ("ranking"), lit ("top"), lit ("compare"),
    lit ("comparison")] (by decide)
  refine ⟨?_, ?_, ?_⟩
  · intro d hlen hdate
    cases d with
    | nil => simp at hlen
    | cons a l =>
      unfold determine_chart_type
      simp only [hpie, hline, hbar, if_false, Bool.false_eq_true]
      have hm : dateColumns.any (fun c => decide (c ∈ a.map (fun p => p.1))) = true := by
        refine List.any_eq_true.mpr ⟨lit ("month"), by decide, ?_⟩
        simpa using hdate
      simp [hm]
  · intro d hlen hdate
    cases d with
    | nil => simp at hlen
    | cons a l =>
      unfold determine_chart_type
      simp only [hpie, hline, hbar, if_false, Bool.false_eq_true]
      have hm : dateColumns.any (fun c => decide (c ∈ a.map (fun p => p.1))) = false := by
        refine List.any_eq_false.mpr ?_
        intro c hc
        simpa using hdate c hc
      simp [hm, hlen]
  · intro d hlen hdate
    cases d with
    | nil => simp at hlen
    | cons a l =>
      unfold determine_chart_type
      simp only [hpie, hline, hbar, if_false, Bool.false_eq_true]
      have hm : dateColumns.any (fun c => decide (c ∈ a.map (fun p => p.1))) = false := by
        refine List.any_eq_false.mpr ?_
        intro c hc
        simpa using hdate c hc
      simp [hm, hlen]

/-- Witness for C8 at the three concrete row sets. -/
theorem chart_type_structural_inference_witness :
    determine_chart_type (lit ("show data")) monthRows = lit ("line") ∧
    determine_chart_type (lit ("show data")) fiveRows = lit ("pie") ∧
    determine_chart_type (lit ("show data")) eightRows = lit ("bar") := by
  have h := chart_type_structural_inference (lit ("show data")) (by decide)
  exact ⟨h.1 monthRows (by decide) (by decide),
         h.2.1 fiveRows (by decide) (by decide),
         h.2.2 eightRows (by decide) (by decide)⟩

/-- Claim C9: whenever the chart-data extraction produces a chart,
re-deriving the labels (via `str` on the metadata label column) and the
values (via `float` on the metadata value column) from the original
rows reproduces exactly the chart's `labels` and dataset `values`. -/
theorem chart_roundtrip (data : List Record) (ct q : PyStr) (spec : Chart)
    (h : extract_chart_dataE data ct q = .ok (some spec)) :
    spec.labels = data.map (fun r => toPyStr (recGetD r spec.labelColumn (.str []))) ∧
    data.mapM (fun r => floatOfValue (recGetD r spec.valueColumn (.int 0))) =
      .ok spec.values := by
  unfold extract_chart_dataE at h
  split at h
  · simp at h
  · split at h
    · split at h
      · simp at h
      · rename_i first rest lc vc vals heq
        simp only [Except.ok.injEq, Option.some.injEq] at h
        subst h
        exact ⟨rfl, heq⟩
    · simp at h

/-- Witness for C9 at a concrete row set and its inferred chart. -/
theorem chart_roundtrip_witness :
    chartSpec.labels =
      chartRows.map (fun r => toPyStr (recGetD r chartSpec.labelColumn (.str []))) ∧
    chartRows.mapM (fun r => floatOfValue (recGetD r chartSpec.valueColumn (.int 0))) =
      .ok chartSpec.values :=
  chart_roundtrip chartRows (lit ("pie")) (lit ("chart")) chartSpec rfl

end AIExport
